import Mathlib

/-!
Shallow embedding of `app/widget/page.tsx`: a widget page gating two list
views (upcoming appointments, urgent todos) behind a fixed 3-digit code.
State updates of the React component are modelled as explicit state passing;
JS strings are Lean `String`s (the passcode entry, built digit by digit, is a
`List Char`); `sessionStorage` at the fixed key is an `Option String`;
`setTimeout` callbacks are pending-timer counts fired by an explicit event.
-/

namespace Widget

/-- `Appointment` record from `@/lib/types` as used by the page:
`date` is an ISO calendar date string, `start` a zero-padded time-of-day
string, so the source's `localeCompare` is lexicographic string comparison. -/
structure Appointment where
  id : String
  title : String
  date : String
  start : String
  durationMin : Nat
deriving DecidableEq

/-- Priority tier of an urgent todo. -/
inductive Priority where
  | high
  | medium
  | low
deriving DecidableEq

/-- `UrgentTodo` record from `@/lib/types` as used by the page.
`dueAt` is an optional numeric timestamp (`undefined` becomes `none`). -/
structure UrgentTodo where
  id : String
  title : String
  done : Bool
  priority : Priority
  dueAt : Option Nat
deriving DecidableEq

/-- The `priorityRank` table of the urgent comparator: high=0, medium=1, low=2. -/
def priorityRank : Priority → Nat
  | .high => 0
  | .medium => 1
  | .low => 2

/-- `a.localeCompare(b)` for the ASCII date/time strings of this page:
lexicographic comparison, negative/zero/positive collapsed to `Ordering`. -/
def strCmp (a b : String) : Ordering :=
  if a < b then Ordering.lt else if b < a then Ordering.gt else Ordering.eq

/-- The appointment comparator of `UpcomingAppointmentsView`:
compare `date` (`dateCompare`), and only on a tie compare `start`. -/
def aptCmp (a b : Appointment) : Ordering :=
  if strCmp a.date b.date ≠ Ordering.eq then strCmp a.date b.date
  else strCmp a.start b.start

/-- The total preorder induced by `aptCmp`: `a` may stay before `b`. -/
def aptLe (a b : Appointment) : Prop := aptCmp a b ≠ Ordering.gt

instance : DecidableRel aptLe := fun a b =>
  inferInstanceAs (Decidable (aptCmp a b ≠ Ordering.gt))

/-- `[...appointments].sort(comparator)` of `UpcomingAppointmentsView`:
a stable sort of a copy of the input by `aptCmp`. -/
def sortAppointments (l : List Appointment) : List Appointment :=
  List.insertionSort aptLe l

/-- The comparator of `UrgentTodosView` on due timestamps:
`a.dueAt ?? Infinity` minus `b.dueAt ?? Infinity`, with two missing values
comparing equal (in JS the comparator yields `NaN` there, which `sort`
treats as `0`). -/
def dueCmp (a b : Option Nat) : Ordering :=
  match a, b with
  | some x, some y =>
      if x < y then Ordering.lt else if y < x then Ordering.gt else Ordering.eq
  | some _, none => Ordering.lt
  | none, some _ => Ordering.gt
  | none, none => Ordering.eq

/-- The urgent-todo comparator of `UrgentTodosView`: `priorityRank` difference
first, then due timestamps with missing `dueAt` as `Infinity`. -/
def urgentCmp (a b : UrgentTodo) : Ordering :=
  if priorityRank a.priority ≠ priorityRank b.priority then
    (if priorityRank a.priority < priorityRank b.priority then Ordering.lt
     else Ordering.gt)
  else dueCmp a.dueAt b.dueAt

/-- The total preorder induced by `urgentCmp`. -/
def urgentLe (a b : UrgentTodo) : Prop := urgentCmp a b ≠ Ordering.gt

instance : DecidableRel urgentLe := fun a b =>
  inferInstanceAs (Decidable (urgentCmp a b ≠ Ordering.gt))

/-- `[...todos].sort(comparator)` of `UrgentTodosView`. -/
def sortedUrgent (l : List UrgentTodo) : List UrgentTodo :=
  List.insertionSort urgentLe l

/-- Due-time order with a missing `dueAt` larger than any defined value. -/
def dueLe : Option Nat → Option Nat → Prop
  | some x, some y => x ≤ y
  | some _, none => True
  | none, none => True
  | none, some _ => False

theorem strCmp_eq_gt {a b : String} : strCmp a b = Ordering.gt ↔ b < a := by
  unfold strCmp
  rcases lt_trichotomy a b with h | h | h
  · simp [h, asymm h]
  · simp [h, lt_irrefl]
  · simp [asymm h, h]

theorem strCmp_eq_eq {a b : String} : strCmp a b = Ordering.eq ↔ a = b := by
  unfold strCmp
  rcases lt_trichotomy a b with h | h | h
  · simp only [h, if_true, reduceCtorEq, false_iff]
    exact fun he => absurd h (by rw [he]; exact lt_irrefl _)
  · simp [h, lt_irrefl]
  · simp only [asymm h, if_false, h, if_true, reduceCtorEq, false_iff]
    exact fun he => absurd h (by rw [he]; exact lt_irrefl _)

theorem aptLe_iff (a b : Appointment) :
    aptLe a b ↔ a.date < b.date ∨ (a.date = b.date ∧ a.start ≤ b.start) := by
  unfold aptLe aptCmp
  by_cases hd : strCmp a.date b.date = Ordering.eq
  · rw [if_neg (not_not_intro hd)]
    have hdd : a.date = b.date := strCmp_eq_eq.mp hd
    constructor
    · intro h
      refine Or.inr ⟨hdd, ?_⟩
      by_contra hs
      exact h (strCmp_eq_gt.mpr (not_le.mp hs))
    · intro h hgt
      rcases h with h | ⟨_, hs⟩
      · exact absurd h (by rw [hdd]; exact lt_irrefl _)
      · exact absurd (strCmp_eq_gt.mp hgt) (not_lt.mpr hs)
  · rw [if_pos hd]
    constructor
    · intro h
      rcases lt_trichotomy a.date b.date with hl | hl | hl
      · exact Or.inl hl
      · exact absurd (strCmp_eq_eq.mpr hl) hd
      · exact absurd (strCmp_eq_gt.mpr hl) h
    · intro h hgt
      have hba := strCmp_eq_gt.mp hgt
      rcases h with h | ⟨he, _⟩
      · exact absurd h (asymm hba)
      · exact hd (strCmp_eq_eq.mpr he)

instance : IsTotal Appointment aptLe := by
  constructor
  intro a b
  rw [aptLe_iff, aptLe_iff]
  rcases lt_trichotomy a.date b.date with h | h | h
  · exact Or.inl (Or.inl h)
  · rcases le_total a.start b.start with hs | hs
    · exact Or.inl (Or.inr ⟨h, hs⟩)
    · exact Or.inr (Or.inr ⟨h.symm, hs⟩)
  · exact Or.inr (Or.inl h)

instance : IsTrans Appointment aptLe := by
  constructor
  intro a b c hab hbc
  rw [aptLe_iff] at hab hbc ⊢
  rcases hab with h1 | ⟨h1, h1s⟩
  · rcases hbc with h2 | ⟨h2, _⟩
    · exact Or.inl (h1.trans h2)
    · exact Or.inl (h2 ▸ h1)
  · rcases hbc with h2 | ⟨h2, h2s⟩
    · exact Or.inl (h1 ▸ h2)
    · exact Or.inr ⟨h1.trans h2, h1s.trans h2s⟩

theorem urgentLe_iff (a b : UrgentTodo) :
    urgentLe a b ↔ priorityRank a.priority < priorityRank b.priority ∨
      (priorityRank a.priority = priorityRank b.priority ∧ dueLe a.dueAt b.dueAt) := by
  unfold urgentLe urgentCmp
  by_cases h : priorityRank a.priority = priorityRank b.priority
  · simp only [h, ne_eq, not_true_eq_false, if_false, lt_irrefl]
    cases ha : a.dueAt with
    | none =>
        cases hb : b.dueAt with
        | none => simp [dueCmp, dueLe]
        | some y => simp [dueCmp, dueLe]
    | some x =>
        cases hb : b.dueAt with
        | none => simp [dueCmp, dueLe]
        | some y =>
            simp only [dueCmp, dueLe]
            rcases lt_trichotomy x y with hxy | hxy | hxy
            · simp [hxy, asymm hxy, le_of_lt hxy]
            · simp [hxy, lt_irrefl, le_refl]
            · simp [asymm hxy, hxy, not_le.mpr hxy]
  · simp only [h, ne_eq, not_false_eq_true, if_true, false_and, or_false]
    rcases lt_trichotomy (priorityRank a.priority) (priorityRank b.priority) with hl | hl | hl
    · simp [hl]
    · exact absurd hl h
    · simp [not_lt_of_gt hl, hl, not_lt.mpr (le_of_lt hl)]

instance : IsTotal UrgentTodo urgentLe := by
  constructor
  intro a b
  rw [urgentLe_iff, urgentLe_iff]
  rcases lt_trichotomy (priorityRank a.priority) (priorityRank b.priority) with h | h | h
  · exact Or.inl (Or.inl h)
  · have : dueLe a.dueAt b.dueAt ∨ dueLe b.dueAt a.dueAt := by
      cases a.dueAt with
      | none => cases b.dueAt <;> simp [dueLe]
      | some x =>
          cases b.dueAt with
          | none => simp [dueLe]
          | some y => simpa [dueLe] using le_total x y
    rcases this with hd | hd
    · exact Or.inl (Or.inr ⟨h, hd⟩)
    · exact Or.inr (Or.inr ⟨h.symm, hd⟩)
  · exact Or.inr (Or.inl h)

theorem dueLe_trans {a b c : Option Nat} (h1 : dueLe a b) (h2 : dueLe b c) : dueLe a c := by
  cases a with
  | none =>
      cases b with
      | none => cases c <;> simp_all [dueLe]
      | some y => cases c <;> simp_all [dueLe]
  | some x =>
      cases b with
      | none => cases c <;> simp_all [dueLe]
      | some y =>
          cases c with
          | none => simp [dueLe]
          | some z => simp only [dueLe] at h1 h2 ⊢; exact h1.trans h2

instance : IsTrans UrgentTodo urgentLe := by
  constructor
  intro a b c hab hbc
  rw [urgentLe_iff] at hab hbc ⊢
  rcases hab with h1 | ⟨h1, h1d⟩
  · rcases hbc with h2 | ⟨h2, _⟩
    · exact Or.inl (h1.trans h2)
    · exact Or.inl (h2 ▸ h1)
  · rcases hbc with h2 | ⟨h2, h2d⟩
    · exact Or.inl (h1 ▸ h2)
    · exact Or.inr ⟨h1.trans h2, dueLe_trans h1d h2d⟩

/-! ### The access gate and page state machine -/

/-- `const CODE_LOCK = "333"`, the fixed 3-digit passcode, as its characters. -/
def CODE_LOCK : List Char := ['3', '3', '3']

/-- `const STORAGE_KEY = "psa.widget.unlocked"`. -/
def STORAGE_KEY : String := "psa.widget.unlocked"

/-- Which tab is active (`useState<"upcoming" | "urgent">("upcoming")`). -/
inductive Tab where
  | upcoming
  | urgent
deriving DecidableEq

/-- The outcome observed by one `loadAppointments` call: the `fetch`/`json`
pair throws (transport failure), or a decoded body with its `ok` field and
its `items` field (`none` when `items` is not an array). -/
inductive FetchOutcome where
  | transportFailure
  | response (ok : Bool) (items : Option (List Appointment))

/-- The page state held in the component's `useState` hooks, together with
the `sessionStorage` slot at `STORAGE_KEY` and the number of pending
`setTimeout` error-clear callbacks. -/
structure GateState where
  unlocked : Bool
  code : List Char
  error : Bool
  tab : Tab
  appointments : List Appointment
  storage : Option String
  timers : Nat
deriving DecidableEq

/-- State at mount: `unlocked=false`, `code=""`, `error=false`,
`tab="upcoming"`, `appointments=[]`, with whatever the session storage
holds at the fixed key and no timer pending. -/
def initState (stored : Option String) : GateState :=
  { unlocked := false, code := [], error := false, tab := Tab.upcoming,
    appointments := [], storage := stored, timers := 0 }

/-- `handleButtonPress(digit)`: append the digit; when the entry reaches
exactly 3 characters, compare with `CODE_LOCK`; on match unlock, write the
session marker and clear the error; on mismatch set the error and arm a
1000ms `setTimeout` that will clear entry and error together. -/
def handleButtonPress (digit : Char) (s : GateState) : GateState :=
  if (s.code ++ [digit]).length = 3 then
    if s.code ++ [digit] = CODE_LOCK then
      { s with code := s.code ++ [digit], unlocked := true,
               storage := some "true", error := false }
    else
      { s with code := s.code ++ [digit], error := true, timers := s.timers + 1 }
  else
    { s with code := s.code ++ [digit] }

/-- `handleClear`: reset the entry and the error flag immediately.
It does not cancel any pending `setTimeout`. -/
def handleClear (s : GateState) : GateState :=
  { s with code := [], error := false }

/-- The body of the `setTimeout` callback armed on a failed match:
`setCode("")` and `setError(false)`, together, when a timer is pending. -/
def timerCallback (s : GateState) : GateState :=
  if s.timers = 0 then s
  else { s with code := [], error := false, timers := s.timers - 1 }

/-- The mount effect reading `sessionStorage.getItem(STORAGE_KEY)`:
unlocked exactly when the stored value is the string `"true"`
(`stored === "true"`); absent or any other value leaves it locked. -/
def restoreFromSession (stored : Option String) : Bool :=
  match stored with
  | some s => s == "true"
  | none => false

/-- `loadAppointments` state transition: on a decoded body with `ok` and an
`items` array, replace the collection with the items whose `date >= today`;
on `ok=false`, a non-array `items`, or a thrown transport error, keep the
previous collection (the `catch` only logs). -/
def loadAppointments (prev : List Appointment) (today : String)
    (o : FetchOutcome) : List Appointment :=
  match o with
  | FetchOutcome.transportFailure => prev
  | FetchOutcome.response ok items =>
      if ok then
        match items with
        | some l => l.filter (fun apt => decide (today ≤ apt.date))
        | none => prev
      else prev

/-- The UI events the page can process. Digit and clear buttons exist only
on the lock screen (`!unlocked`); digit buttons carry
`disabled={code.length >= 3}`; the tab buttons exist only once unlocked;
a fetch resolves with some outcome; a toggle is delegated to the external
store and does not change this page's state. -/
inductive Event where
  | press (digit : Char)
  | clearEntry
  | timerFires
  | restore
  | selectTab (t : Tab)
  | fetchResolved (today : String) (o : FetchOutcome)
  | toggle (id : String)

/-- One step of the page's event loop. -/
def step (s : GateState) (e : Event) : GateState :=
  match e with
  | Event.press d =>
      if s.unlocked then s
      else if 3 ≤ s.code.length then s
      else handleButtonPress d s
  | Event.clearEntry => if s.unlocked then s else handleClear s
  | Event.timerFires => timerCallback s
  | Event.restore =>
      if restoreFromSession s.storage then { s with unlocked := true } else s
  | Event.selectTab t => if s.unlocked then { s with tab := t } else s
  | Event.fetchResolved today o =>
      { s with appointments := loadAppointments s.appointments today o }
  | Event.toggle _ => s

/-- Run a sequence of events from a state. -/
def run (s : GateState) (evs : List Event) : GateState :=
  evs.foldl step s

/-- The composite upcoming-appointments transform: the fetch-time filter of
`loadAppointments` followed by the render-time sort of
`UpcomingAppointmentsView`. -/
def upcomingAppointments (all : List Appointment) (today : String) :
    List Appointment :=
  sortAppointments (all.filter (fun apt => decide (today ≤ apt.date)))

/-! ### Supporting lemmas -/

theorem handleButtonPress_code (d : Char) (s : GateState) :
    (handleButtonPress d s).code = s.code ++ [d] := by
  unfold handleButtonPress
  split
  · split <;> rfl
  · rfl

theorem step_code_length {s : GateState} (e : Event) (h : s.code.length ≤ 3) :
    (step s e).code.length ≤ 3 := by
  cases e with
  | press d =>
      simp only [step]
      split
      · exact h
      · split
        · exact h
        · rename_i hl
          rw [handleButtonPress_code]
          simp only [List.length_append, List.length_cons, List.length_nil]
          omega
  | clearEntry =>
      simp only [step, handleClear]
      split
      · exact h
      · simp
  | timerFires =>
      simp only [step, timerCallback]
      split
      · exact h
      · simp
  | restore =>
      simp only [step]
      split
      · exact h
      · exact h
  | selectTab t =>
      simp only [step]
      split
      · exact h
      · exact h
  | fetchResolved today o => exact h
  | toggle id => exact h

theorem run_code_length (evs : List Event) (s : GateState)
    (h : s.code.length ≤ 3) : (run s evs).code.length ≤ 3 := by
  induction evs generalizing s with
  | nil => exact h
  | cons e rest ih => exact ih (step s e) (step_code_length e h)

theorem step_unlocked_mono {s : GateState} (e : Event)
    (h : s.unlocked = true) : (step s e).unlocked = true := by
  cases e with
  | press d => simp [step, h]
  | clearEntry => simp [step, h]
  | timerFires =>
      simp only [step, timerCallback]
      split
      · exact h
      · exact h
  | restore =>
      simp only [step]
      split
      · rfl
      · exact h
  | selectTab t =>
      simp only [step]
      split
      · exact h
      · exact h
  | fetchResolved today o => exact h
  | toggle id => exact h

theorem run_three_presses (d1 d2 d3 : Char) (stored : Option String) :
    run (initState stored) [Event.press d1, Event.press d2, Event.press d3] =
      (if [d1, d2, d3] = CODE_LOCK then
        { initState stored with
            code := [d1, d2, d3]
            unlocked := true
            storage := some "true"
            error := false }
      else
        { initState stored with
            code := [d1, d2, d3]
            error := true
            timers := 1 }) := by
  simp only [run, List.foldl, step, handleButtonPress, initState]
  norm_num

theorem run_append (s : GateState) (l1 l2 : List Event) :
    run s (l1 ++ l2) = run (run s l1) l2 :=
  List.foldl_append step s l1 l2

/-! ### Claims -/

/-- C3: for every input list of appointments and every value of `today`, the
upcoming-appointments transform (fetch-time filter followed by render-time
sort) keeps exactly the items whose `date` is `>= today`, and presents them
sorted ascending by `date`, within equal `date` ascending by `start`. -/
theorem upcomingAppointments_spec (all : List Appointment) (today : String) :
    (upcomingAppointments all today).Perm
        (all.filter (fun apt => decide (today ≤ apt.date))) ∧
    (∀ a, a ∈ upcomingAppointments all today ↔ (a ∈ all ∧ today ≤ a.date)) ∧
    (upcomingAppointments all today).Pairwise
        (fun a b => a.date < b.date ∨ (a.date = b.date ∧ a.start ≤ b.start)) := by
  refine ⟨List.perm_insertionSort aptLe _, ?_, ?_⟩
  · intro a
    rw [upcomingAppointments, sortAppointments, List.mem_insertionSort,
        List.mem_filter]
    simp
  · exact List.Pairwise.imp (fun hab => (aptLe_iff _ _).mp hab)
      (List.sorted_insertionSort aptLe
        (all.filter (fun apt => decide (today ≤ apt.date))))

/-- C10: the render-time transform of `UpcomingAppointmentsView` only copies
and sorts: its output is a permutation of its input, with exactly the same
members — no date filtering or other removal happens at render time, so an
item whose date has become past since the last fetch is still displayed. -/
theorem upcomingView_is_permutation (l : List Appointment) :
    (sortAppointments l).Perm l ∧ (∀ a, a ∈ sortAppointments l ↔ a ∈ l) :=
  ⟨List.perm_insertionSort aptLe l, fun _ => List.mem_insertionSort aptLe⟩

/-- C4: on any list of urgent todos with `done = false`, the urgent sort
orders ascending by priority rank (high=0 < medium=1 < low=2), within equal
rank ascending by `dueAt` with a missing `dueAt` larger than any defined
value, and is a permutation of its input. -/
theorem sortedUrgent_spec (l : List UrgentTodo)
    (h : ∀ t ∈ l, t.done = false) :
    (sortedUrgent l).Perm l ∧
    priorityRank Priority.high = 0 ∧ priorityRank Priority.medium = 1 ∧
    priorityRank Priority.low = 2 ∧
    (sortedUrgent l).Pairwise (fun a b =>
      priorityRank a.priority < priorityRank b.priority ∨
      (priorityRank a.priority = priorityRank b.priority ∧
        dueLe a.dueAt b.dueAt)) := by
  refine ⟨List.perm_insertionSort urgentLe l, rfl, rfl, rfl, ?_⟩
  exact List.Pairwise.imp (fun hab => (urgentLe_iff _ _).mp hab)
    (List.sorted_insertionSort urgentLe l)

/-- Example input for the urgent sort, taken from the specification's test
vector: [low/t1, high/undefined, high/t0] with t0 < t1. -/
def exUrgent : List UrgentTodo :=
  [{ id := "a", title := "A", done := false, priority := Priority.low,
     dueAt := some 20 },
   { id := "b", title := "B", done := false, priority := Priority.high,
     dueAt := none },
   { id := "c", title := "C", done := false, priority := Priority.high,
     dueAt := some 10 }]

/-- Witness for C4 at the specification's concrete example. -/
theorem sortedUrgent_spec_witness :
    (sortedUrgent exUrgent).Perm exUrgent ∧
    priorityRank Priority.high = 0 ∧ priorityRank Priority.medium = 1 ∧
    priorityRank Priority.low = 2 ∧
    (sortedUrgent exUrgent).Pairwise (fun a b =>
      priorityRank a.priority < priorityRank b.priority ∨
      (priorityRank a.priority = priorityRank b.priority ∧
        dueLe a.dueAt b.dueAt)) :=
  sortedUrgent_spec exUrgent (by decide)

/-- C5: every failed fetch outcome — transport failure, a body with
`ok = false`, or a malformed body whose `items` is not an array — leaves the
previously displayed appointment collection unchanged; `loadAppointments`
is a total function, so no unhandled error escapes. -/
theorem loadAppointments_failure_preserves (prev : List Appointment)
    (today : String) (items : Option (List Appointment)) :
    loadAppointments prev today FetchOutcome.transportFailure = prev ∧
    loadAppointments prev today (FetchOutcome.response false items) = prev ∧
    loadAppointments prev today (FetchOutcome.response true none) = prev := by
  refine ⟨rfl, ?_, rfl⟩
  cases items <;> rfl

/-- Counterexample for C8 as stated: a stored marker that is present but not
the string `"true"` (here `"false"`) leaves the gate locked, so presence of
the marker alone does not imply unlocked. -/
theorem restoreFromSession_presence_cex :
    (some "false" : Option String).isSome = true ∧
    restoreFromSession (some "false") = false := by
  constructor
  · rfl
  · rfl

/-- C8 (amended): `restoreFromSession` yields unlocked exactly when the
stored per-session value is the string `"true"`; absence or any other
stored value yields locked. -/
theorem restoreFromSession_iff (stored : Option String) :
    restoreFromSession stored = true ↔ stored = some "true" := by
  cases stored with
  | none => simp [restoreFromSession]
  | some s => simp [restoreFromSession]

/-- C1: from the mount state, a 3-digit entry equal to the fixed passcode
ends unlocked with the session marker written and the error flag false; any
other 3-digit entry leaves the gate locked with the error flag set and the
entry intact, and the pending 1000ms timeout clears entry and error flag
together, leaving the gate locked. -/
theorem submitDigit_completion (d1 d2 d3 : Char) (stored : Option String) :
    (([d1, d2, d3] = CODE_LOCK) →
      ((run (initState stored)
          [Event.press d1, Event.press d2, Event.press d3]).unlocked = true ∧
       (run (initState stored)
          [Event.press d1, Event.press d2, Event.press d3]).storage
            = some "true" ∧
       (run (initState stored)
          [Event.press d1, Event.press d2, Event.press d3]).error = false)) ∧
    (([d1, d2, d3] ≠ CODE_LOCK) →
      ((run (initState stored)
          [Event.press d1, Event.press d2, Event.press d3]).unlocked = false ∧
       (run (initState stored)
          [Event.press d1, Event.press d2, Event.press d3]).error = true ∧
       (run (initState stored)
          [Event.press d1, Event.press d2, Event.press d3]).code
            = [d1, d2, d3] ∧
       (run (initState stored)
          [Event.press d1, Event.press d2, Event.press d3,
           Event.timerFires]).code = [] ∧
       (run (initState stored)
          [Event.press d1, Event.press d2, Event.press d3,
           Event.timerFires]).error = false ∧
       (run (initState stored)
          [Event.press d1, Event.press d2, Event.press d3,
           Event.timerFires]).unlocked = false)) := by
  have h4 : ∀ s0 : GateState,
      run s0 [Event.press d1, Event.press d2, Event.press d3,
        Event.timerFires] =
      step (run s0 [Event.press d1, Event.press d2, Event.press d3])
        Event.timerFires := fun s0 => rfl
  constructor
  · intro h
    rw [run_three_presses, if_pos h]
    exact ⟨rfl, rfl, rfl⟩
  · intro h
    rw [h4, run_three_presses, if_neg h]
    refine ⟨rfl, rfl, rfl, ?_, ?_, ?_⟩ <;> rfl

/-- Witness for C1: the matching entry 3-3-3 unlocks; the mismatching entry
1-2-3 stays locked with the error set, then the timeout clears both. -/
theorem submitDigit_completion_witness :
    ((run (initState none)
        [Event.press '3', Event.press '3', Event.press '3']).unlocked = true ∧
     (run (initState none)
        [Event.press '3', Event.press '3', Event.press '3']).storage
          = some "true" ∧
     (run (initState none)
        [Event.press '3', Event.press '3', Event.press '3']).error = false) ∧
    ((run (initState none)
        [Event.press '1', Event.press '2', Event.press '3']).unlocked = false ∧
     (run (initState none)
        [Event.press '1', Event.press '2', Event.press '3']).error = true ∧
     (run (initState none)
        [Event.press '1', Event.press '2', Event.press '3']).code
          = ['1', '2', '3'] ∧
     (run (initState none)
        [Event.press '1', Event.press '2', Event.press '3',
         Event.timerFires]).code = [] ∧
     (run (initState none)
        [Event.press '1', Event.press '2', Event.press '3',
         Event.timerFires]).error = false ∧
     (run (initState none)
        [Event.press '1', Event.press '2', Event.press '3',
         Event.timerFires]).unlocked = false) :=
  ⟨(submitDigit_completion '3' '3' '3' none).1 (by decide),
   (submitDigit_completion '1' '2' '3' none).2 (by decide)⟩

/-- C2: in every state reachable from mount the passcode entry has length at
most 3, and a digit press in a state whose entry already has length 3 leaves
the whole state unchanged (the digit buttons carry
`disabled={code.length >= 3}`). -/
theorem entry_length_invariant :
    (∀ (stored : Option String) (evs : List Event),
        (run (initState stored) evs).code.length ≤ 3) ∧
    (∀ (s : GateState) (d : Char), s.code.length = 3 →
        step s (Event.press d) = s) := by
  constructor
  · intro stored evs
    exact run_code_length evs (initState stored) (by simp [initState])
  · intro s d h
    simp only [step]
    by_cases hu : s.unlocked = true
    · rw [if_pos hu]
    · rw [if_neg hu, if_pos (le_of_eq h.symm)]

/-- Concrete locked state with a full 3-digit entry, an error showing and a
pending timer. -/
def lockedFullEntry : GateState :=
  { unlocked := false, code := ['1', '2', '3'], error := true,
    tab := Tab.upcoming, appointments := [], storage := none, timers := 1 }

/-- Witness for C2: a run from mount keeps the entry within 3 digits, and a
press on a full entry changes nothing. -/
theorem entry_length_invariant_witness :
    (run (initState none)
        [Event.press '7', Event.press '7', Event.press '7',
         Event.press '7']).code.length ≤ 3 ∧
    step lockedFullEntry (Event.press '9') = lockedFullEntry :=
  ⟨entry_length_invariant.1 none
      [Event.press '7', Event.press '7', Event.press '7', Event.press '7'],
   entry_length_invariant.2 lockedFullEntry '9' (by decide)⟩

/-- C9: the unlocked state is monotonic — from any unlocked state, no
sequence of digit presses, clears, timer firings, restores, tab switches,
fetch resolutions or toggles ever returns the gate to locked. -/
theorem unlocked_monotonic (s : GateState) (evs : List Event)
    (h : s.unlocked = true) : (run s evs).unlocked = true := by
  induction evs generalizing s with
  | nil => exact h
  | cons e rest ih => exact ih (step s e) (step_unlocked_mono e h)

/-- Concrete unlocked state reached after a successful match. -/
def unlockedState : GateState :=
  { unlocked := true, code := CODE_LOCK, error := false, tab := Tab.upcoming,
    appointments := [], storage := some "true", timers := 0 }

/-- Witness for C9 at a concrete unlocked state and event sequence. -/
theorem unlocked_monotonic_witness :
    (run unlockedState
        [Event.clearEntry, Event.timerFires, Event.press '5', Event.restore,
         Event.selectTab Tab.urgent,
         Event.fetchResolved "2024-06-10" FetchOutcome.transportFailure,
         Event.toggle "id1"]).unlocked = true :=
  unlocked_monotonic unlockedState
    [Event.clearEntry, Event.timerFires, Event.press '5', Event.restore,
     Event.selectTab Tab.urgent,
     Event.fetchResolved "2024-06-10" FetchOutcome.transportFailure,
     Event.toggle "id1"] rfl

/-- Counterexample for C7 as stated: after the successful entry 3-3-3 the
gate is unlocked but the entry still holds the passcode — it is not reset to
the empty sequence as part of the match transition. -/
theorem matched_entry_not_cleared_cex :
    (run (initState none)
        [Event.press '3', Event.press '3', Event.press '3']).unlocked = true ∧
    ¬ (run (initState none)
        [Event.press '3', Event.press '3', Event.press '3']).code = [] := by
  decide

/-- C7 (amended): on a successful match the gate unlocks but the entry
retains the full 3-digit passcode; it is cleared only by an explicit clear
or by the failed-match timeout. -/
theorem matched_entry_retained (d1 d2 d3 : Char) (stored : Option String)
    (h : [d1, d2, d3] = CODE_LOCK) :
    (run (initState stored)
        [Event.press d1, Event.press d2, Event.press d3]).unlocked = true ∧
    (run (initState stored)
        [Event.press d1, Event.press d2, Event.press d3]).code = CODE_LOCK := by
  rw [run_three_presses, if_pos h]
  exact ⟨rfl, h⟩

/-- Witness for C7 (amended) at the concrete entry 3-3-3. -/
theorem matched_entry_retained_witness :
    (run (initState none)
        [Event.press '3', Event.press '3', Event.press '3']).unlocked = true ∧
    (run (initState none)
        [Event.press '3', Event.press '3', Event.press '3']).code = CODE_LOCK :=
  matched_entry_retained '3' '3' '3' none (by decide)

/-- C6 fails on the code: `handleClear` does not cancel the timeout armed by
a failed entry. After the failed entry 1-1-1, an explicit clear, and two new
digits 3-3, the stale timer is still pending and its firing wipes the newer
two-digit entry. -/
theorem stale_timer_clobbers_newer_entry :
    (run (initState none)
        [Event.press '1', Event.press '1', Event.press '1', Event.clearEntry,
         Event.press '3', Event.press '3']).code = ['3', '3'] ∧
    (run (initState none)
        [Event.press '1', Event.press '1', Event.press '1', Event.clearEntry,
         Event.press '3', Event.press '3']).timers = 1 ∧
    (run (initState none)
        [Event.press '1', Event.press '1', Event.press '1', Event.clearEntry,
         Event.press '3', Event.press '3', Event.timerFires]).code = [] := by
  decide

end Widget
